import Mathlib

/-!
Verification development for the CRS course-recommendation engine.

The Python sources (`burnout_calculator.py`, `ga_recommender.py`, `utils.py`)
operate on pandas DataFrames; here each DataFrame is embedded as a list of
records and each numeric cell as `Option ℚ` (`none` models a pandas `NaN`,
`pd.notna` is `Option.isSome`).  Float arithmetic is modelled over `ℚ`, with
`ℝ` used where the source calls `np.log` / `np.exp`.  The dynamic-shape
dispatch of `utils.standardize_student_data` is modelled on its canonical
result shape: `completed_courses` is a mapping from subject code to an
optional grade record, and the recommender views of the profile read only the
key set of that mapping.
-/

namespace CRS

/-- One row of `subjects_df` as produced by `utils.load_subject_data`
(columns in source order; `course_outcomes` may be NaN, every numeric
column may be NaN after `pd.to_numeric(errors='coerce')`). -/
structure Subject where
  subject_code : String
  name : String
  course_outcomes : Option String
  hours_per_week : Option ℚ
  num_assignments : Option ℚ
  hours_per_assignment : Option ℚ
  assignment_weight : Option ℚ
  avg_assignment_grade : Option ℚ
  project_weight : Option ℚ
  avg_project_grade : Option ℚ
  exam_count : Option ℚ
  avg_exam_grade : Option ℚ
  exam_weight : Option ℚ
  avg_final_grade : Option ℚ
  seats : Option ℚ
  enrollments : Option ℚ
  deriving DecidableEq

/-- One row of `requirements_df` (type is the string "programming" or "math"). -/
structure Requirement where
  subject_code : String
  type : String
  requirement : String
  deriving DecidableEq

/-- One row of `prereqs_df`. -/
structure Prereq where
  subject_code : String
  prereq_subject_code : String
  deriving DecidableEq

/-- One row of `outcomes_df`. -/
structure Outcome where
  subject_code : String
  outcome : String
  deriving DecidableEq

/-- The grade fields read out of a completed-course record by
`calculate_stress_factor` (each read with a `.get(key, default)`). -/
structure CompletedGrades where
  avgAssignmentGrade : Option ℚ
  avgExamGrade : Option ℚ
  avgProjectGrade : Option ℚ
  deriving DecidableEq

/-- A value of the `completed_courses` mapping: either a structured grade
record (a Python dict) or some other shape, which the source replaces by
the subject's defaults (`if isinstance(completed_course, dict)` branch). -/
inductive CompletedEntry where
  | record : CompletedGrades → CompletedEntry
  | other : CompletedEntry
  deriving DecidableEq

/-- A student profile in the canonical shape produced by
`utils.standardize_student_data`: experience maps are dicts keyed by skill
name, `completed_courses` a dict keyed by subject code, `core_subjects`,
`desired_outcomes` and `interests` comma-joined strings. -/
structure Student where
  programming_experience : List (String × ℚ)
  math_experience : List (String × ℚ)
  completed_courses : List (String × CompletedEntry)
  core_subjects : String
  desired_outcomes : String
  interests : String
  semester : ℚ
  deriving DecidableEq

/-- The burnout weight configuration (`weights` dict of `calculate_burnout`). -/
structure Weights where
  w1 : ℚ
  w2 : ℚ
  w3 : ℚ
  k : ℚ
  P0 : ℚ
  deriving DecidableEq

/-- Default weights of `calculate_burnout` (source lines 153-160). -/
def defaultWeights : Weights :=
  { w1 := 2/5, w2 := 3/10, w3 := 3/10, k := 4, P0 := 1/2 }

/-- The utility weight configuration (`utility_weights` of `calculate_utility`). -/
structure UtilityWeights where
  alpha : ℚ
  beta : ℚ
  delta : ℚ
  deriving DecidableEq

/-- Default utility weights (source lines 48-53 of `ga_recommender.py`). -/
def defaultUtilityWeights : UtilityWeights :=
  { alpha := 1/2, beta := 1/2, delta := 1/2 }

/-- A normalization context: the `max_values` mapping consumed by
`workload_factor`. -/
structure MaxValues where
  Hmax : ℚ
  Amax : ℚ
  Pmax : ℚ
  Emax : ℚ
  deriving DecidableEq

/-- The result shape of `precalculate_max_values`: pandas `.max()` of an
all-NaN (or empty) column is NaN, and Python's `max(nan, 1)` is again NaN,
so each produced maximum may itself be missing (`none`). -/
structure MaxValuesN where
  Hmax : Option ℚ
  Amax : Option ℚ
  Pmax : Option ℚ
  Emax : Option ℚ
  deriving DecidableEq

/-- One row of the precomputed burnout-and-utility table
(`burnout_scores_df`) consumed by `find_matching_courses`. -/
structure BurnoutRow where
  subject_code : String
  burnout_score : ℚ
  utility : ℚ
  deriving DecidableEq

/-- A record appended to `matching_courses` by `find_matching_courses`. -/
structure MatchedCourse where
  subject_code : String
  name : String
  match_score : ℚ
  likelihood : ℚ
  seats : ℚ
  enrollments : ℚ
  burnout_score : Option ℚ
  utility_score : Option ℚ
  reasons : List String
  is_core : Bool
  deriving DecidableEq

/-- The key set of the student's `completed_courses` mapping; the set shape
used by the recommender is exactly this key set
(`utils.standardize_student_data`, `for_burnout=False` branch). -/
def completedKeys (student : Student) : List String :=
  student.completed_courses.map Prod.fst

/-- burnout_calculator.get_subject: first row of the catalog whose
`subject_code` matches, `None` when there is no match. -/
def get_subject (catalog : List Subject) (code : String) : Option Subject :=
  (catalog.filter (fun s => s.subject_code = code)).head?

/-- The prerequisite codes listed for a subject:
`list(prereqs_df[prereqs_df['subject_code'] == code]['prereq_subject_code'])`. -/
def prereqsOf (prereqs : List Prereq) (code : String) : List String :=
  (prereqs.filter (fun p => p.subject_code = code)).map Prereq.prereq_subject_code

/-- utils.prerequisites_satisfied: every prerequisite of the course is a key
of the student's completed set. -/
def prerequisites_satisfied (code : String) (student : Student)
    (prereqs : List Prereq) : Bool :=
  (prereqsOf prereqs code).all (fun p => (completedKeys student).contains p)

/-- utils.standardize_student_data: on the canonical profile shape used
throughout this embedding the shape dispatch is the identity (the source
only converts between the dict/set/list spellings of `completed_courses`,
which this model fixes to the dict shape read through `completedKeys`). -/
def standardize_student_data (student : Student) : Student := student

/-- Elementwise product of two possibly-NaN cells (NaN propagates). -/
def optMul (x y : Option ℚ) : Option ℚ :=
  match x, y with
  | some a, some b => some (a * b)
  | _, _ => none

/-- Elementwise `(c - x)` for a possibly-NaN cell (NaN propagates). -/
def optSubFrom (c : ℚ) (x : Option ℚ) : Option ℚ :=
  x.map (fun v => c - v)

/-- pandas `Series.max()` with the default `skipna=True`: the maximum of the
present values, NaN (`none`) when no value is present. -/
def colMax (xs : List (Option ℚ)) : Option ℚ :=
  xs.foldr
    (fun x acc =>
      match x, acc with
      | none, a => a
      | some v, none => some v
      | some v, some m => some (max v m))
    none

/-- Python `max(x, 1)` where `x` may be NaN: comparisons against NaN are
false, so `max` keeps its NaN first argument. -/
def pyMaxOne (x : Option ℚ) : Option ℚ :=
  x.map (fun v => max v 1)

/-- Python `x >= c` where `x` may be NaN (any comparison with NaN is false). -/
def optGe (x : Option ℚ) (c : ℚ) : Bool :=
  match x with
  | some v => decide (c ≤ v)
  | none => false

/-- burnout_calculator.precalculate_max_values (source lines 131-144):
columnwise maxima of the derived workload quantities, each passed through
Python's `max(·, 1)`.  No NaN filling happens in this function, so an
all-NaN column yields a NaN maximum. -/
def precalculate_max_values (catalog : List Subject) : MaxValuesN :=
  { Hmax := pyMaxOne (colMax (catalog.map Subject.hours_per_week))
    Amax := pyMaxOne (colMax (catalog.map (fun s =>
      optMul (optMul s.num_assignments s.hours_per_assignment) s.assignment_weight)))
    Pmax := pyMaxOne (colMax (catalog.map (fun s =>
      optMul (optSubFrom 100 s.avg_project_grade) s.project_weight)))
    Emax := pyMaxOne (colMax (catalog.map (fun s =>
      optMul (optMul s.exam_count (optSubFrom 100 s.avg_exam_grade)) s.exam_weight))) }

/-- The arithmetic of burnout_calculator.workload_factor (source lines
24-43) on the fields of the subject's row: missing values default to 0 and
`W' = ln(1 + H/Hmax) + A/Amax + P/Pmax + E/Emax`.  Row extraction is
modelled by `get_subject`; the function is `none` exactly when the subject
code is absent from the catalog. -/
noncomputable def workload_factor (code : String) (catalog : List Subject)
    (mv : MaxValues) : Option ℝ :=
  (get_subject catalog code).map (fun subject =>
    let H : ℚ := subject.hours_per_week.getD 0
    let A : ℚ := subject.num_assignments.getD 0 * subject.hours_per_assignment.getD 0 *
      subject.assignment_weight.getD 0
    let P : ℚ := (100 - subject.avg_project_grade.getD 0) * subject.project_weight.getD 0
    let E : ℚ := subject.exam_count.getD 0 * (100 - subject.avg_exam_grade.getD 0) *
      subject.exam_weight.getD 0
    Real.log (1 + (H : ℝ) / (mv.Hmax : ℝ)) + (A : ℝ) / (mv.Amax : ℝ) +
      (P : ℝ) / (mv.Pmax : ℝ) + (E : ℝ) / (mv.Emax : ℝ))

/-- Mismatch contribution of a single requirement row (body of the loop in
`calculate_prerequisite_mismatch_factor`, source lines 61-75): a matching
proficiency is normalized by 3 and clamped to [0,1]; a requirement of
another type or a missing skill contributes a full mismatch of 1. -/
def reqMismatch (student : Student) (req : Requirement) : ℚ :=
  if req.type = "programming" ∧ (List.lookup req.requirement student.programming_experience).isSome then
    match List.lookup req.requirement student.programming_experience with
    | some v => 1 - min (max (v / 3) 0) 1
    | none => 1
  else if req.type = "math" ∧ (List.lookup req.requirement student.math_experience).isSome then
    match List.lookup req.requirement student.math_experience with
    | some v => 1 - min (max (v / 3) 0) 1
    | none => 1
  else 1

/-- burnout_calculator.calculate_prerequisite_mismatch_factor (source lines
45-78): `M' = (1/T) · Σ (1 - proficiency)` over the subject's requirement
rows, 0 when there are none.  The `prereqs_df` argument is accepted and
unused exactly as in the source. -/
def calculate_prerequisite_mismatch_factor (student : Student) (code : String)
    (requirements : List Requirement) (_prereqs : List Prereq) : ℚ :=
  let subject_reqs := requirements.filter (fun r => r.subject_code = code)
  if subject_reqs.length = 0 then 0
  else (1 / (subject_reqs.length : ℚ)) * ((subject_reqs.map (reqMismatch student)).sum)

/-- The arithmetic of burnout_calculator.calculate_stress_factor (source
lines 80-129): grades fall back to the subject's averages (default 70),
weights default to 0, grades are clamped to [0,100], and the weighted
squared shortfalls are averaged; 0 when the weight sum is 0.  `none`
exactly when the subject code is absent from the catalog. -/
def calculate_stress_factor (student : Student) (code : String)
    (catalog : List Subject) : Option ℚ :=
  (get_subject catalog code).map (fun subject =>
    let default_GA := subject.avg_assignment_grade.getD 70
    let default_GE := subject.avg_exam_grade.getD 70
    let default_GP := subject.avg_project_grade.getD 70
    let Aw := subject.assignment_weight.getD 0
    let Ew := subject.exam_weight.getD 0
    let Pw := subject.project_weight.getD 0
    let grades : ℚ × ℚ × ℚ :=
      match List.lookup code student.completed_courses with
      | some (CompletedEntry.record g) =>
        (g.avgAssignmentGrade.getD default_GA, g.avgExamGrade.getD default_GE,
          g.avgProjectGrade.getD default_GP)
      | some CompletedEntry.other => (default_GA, default_GE, default_GP)
      | none => (default_GA, default_GE, default_GP)
    let total_weight := Aw + Ew + Pw
    if total_weight = 0 then 0
    else
      let GA := max 0 (min 100 grades.1)
      let GE := max 0 (min 100 grades.2.1)
      let GP := max 0 (min 100 grades.2.2)
      (((100 - GA) / 100)^2 * Aw + ((100 - GE) / 100)^2 * Ew +
        ((100 - GP) / 100)^2 * Pw) / total_weight)

/-- The combining step of calculate_burnout (source lines 175-178):
`P' = w1·W' + w2·M' + w3·S'` followed by the sigmoid squash
`1 / (1 + exp(-k·(P' - P0)))`. -/
noncomputable def combineBurnout (w : Weights) (W_prime M_prime S_prime : ℝ) : ℝ :=
  let P_prime := (w.w1 : ℝ) * W_prime + (w.w2 : ℝ) * M_prime + (w.w3 : ℝ) * S_prime
  1 / (1 + Real.exp (-(w.k : ℝ) * (P_prime - (w.P0 : ℝ))))

/-- The arithmetic of burnout_calculator.calculate_burnout (source lines
146-180): the three factors combined by `combineBurnout`.  The
normalization context is a parameter (the source computes it with
`precalculate_max_values` when the `max_values` argument is omitted), the
`outcomes_df` argument is accepted and unused exactly as in the source,
and the result is `none` exactly when the subject code is absent from the
catalog. -/
noncomputable def calculate_burnout (student : Student) (code : String)
    (catalog : List Subject) (requirements : List Requirement)
    (prereqs : List Prereq) (_outcomes : List Outcome) (mv : MaxValues)
    (w : Weights) : Option ℝ :=
  let student1 := standardize_student_data student
  match workload_factor code catalog mv, calculate_stress_factor student1 code catalog with
  | some W_prime, some S_prime =>
    some (combineBurnout w W_prime
      ((calculate_prerequisite_mismatch_factor student1 code requirements prereqs : ℚ) : ℝ)
      (S_prime : ℝ))
  | _, _ => none

/-- A cell value of a pandas row Series, as needed to trace the row
handling inside `workload_factor` under Python semantics. -/
inductive PyCell where
  | pstr : String → PyCell
  | pnum : ℚ → PyCell
  | pna : PyCell
  deriving DecidableEq

/-- Positional access `row.iloc[0]` on a row Series: the value of the row's
first column, which in the catalog layout built by
`utils.load_subject_data` is the `subject_code` string. -/
def rowIloc0 (row : Subject) : PyCell :=
  PyCell.pstr row.subject_code

/-- Python subscripting `v[key]` with a string key: a `str` (or a number,
or NaN) does not support string subscripts and raises `TypeError`. -/
def pySubscript (v : PyCell) (_key : String) : Except String PyCell :=
  match v with
  | PyCell.pstr _ => Except.error "TypeError: string indices must be integers"
  | PyCell.pnum _ => Except.error "TypeError: not subscriptable"
  | PyCell.pna => Except.error "TypeError: not subscriptable"

/-- Lines 20-25 of burnout_calculator.workload_factor under Python
semantics.  `get_subject` already returns `.iloc[0]` of the filtered frame
(a row Series, or `None`); the function body then evaluates
`subject = subject_rows.iloc[0]` — the first cell of that Series, i.e. the
`subject_code` string — and immediately subscripts the result with the
column name `'hours_per_week'`.  Every call therefore raises before any
arithmetic is reached: `TypeError` when the subject exists, and
`AttributeError` (from `None.iloc`) when it does not. -/
def workload_factor_run (catalog : List Subject) (code : String) :
    Except String PyCell :=
  match get_subject catalog code with
  | none => Except.error "AttributeError: NoneType object has no attribute iloc"
  | some row => pySubscript (rowIloc0 row) "hours_per_week"

/-- Python `str.split(sep)` on the underlying character list: splitting at
every separator occurrence, the empty string splitting to `[""]`. -/
def splitCharList (sep : Char) : List Char → List (List Char)
  | [] => [[]]
  | c :: rest =>
    match splitCharList sep rest with
    | [] => [[c]]
    | h :: t => if c = sep then [] :: h :: t else (c :: h) :: t

/-- Python `s.split(sep)` for a single-character separator. -/
def pySplit (s : String) (sep : Char) : List String :=
  (splitCharList sep s.data).map (fun l => String.mk l)

/-- Python `s.lower()`. -/
def pyLower (s : String) : String :=
  String.mk (s.data.map Char.toLower)

/-- Python `s.strip()`: drop leading and trailing whitespace. -/
def pyStrip (s : String) : String :=
  String.mk (((s.data.dropWhile Char.isWhitespace).reverse.dropWhile
    Char.isWhitespace).reverse)

/-- ga_recommender.jaccard_similarity on Python sets of strings, including
the (unreachable) union-size guard of the source. -/
def jaccard_similarity (s1 s2 : Finset String) : ℚ :=
  if s1 = ∅ ∨ s2 = ∅ then 0
  else if (s1 ∪ s2).card = 0 then 0
  else ((s1 ∩ s2).card : ℚ) / ((s1 ∪ s2).card : ℚ)

/-- ga_recommender.calculate_outcome_alignment_score (source lines 24-40):
Jaccard similarity between the student's comma-split desired outcomes and
the subject's outcome rows; 0 when `desired_outcomes` is empty/falsy. -/
def calculate_outcome_alignment_score (student : Student) (code : String)
    (outcomes : List Outcome) : ℚ :=
  if student.desired_outcomes = "" then 0
  else
    let student_outcomes :=
      ((pySplit student.desired_outcomes ',').map pyStrip).toFinset
    let subject_outcomes :=
      ((outcomes.filter (fun o => o.subject_code = code)).map Outcome.outcome).toFinset
    jaccard_similarity student_outcomes subject_outcomes

/-- The prerequisite penalty computed inside calculate_utility (source
lines 64-70): 0 when the subject has no prerequisite rows or all
prerequisites are completed, 1 otherwise. -/
def prereqPenalty (student : Student) (code : String)
    (prereqs : List Prereq) : ℚ :=
  let prereq_courses := prereqsOf prereqs code
  if prereq_courses = [] then 0
  else if prereq_courses.all (fun p => (completedKeys student).contains p) then 0
  else 1

/-- The arithmetic of ga_recommender.calculate_utility (source lines
42-79): `U = α·OAS + β·(1 - Pfinal) - δ·penalty`.  The inner
`calculate_burnout` call is made with default weights and the run's
normalization context (a parameter here; the source lets the omitted
`max_values` argument be recomputed from the catalog), and the result is
`none` exactly when that call signals a missing subject. -/
noncomputable def calculate_utility (student : Student) (code : String)
    (catalog : List Subject) (requirements : List Requirement)
    (prereqs : List Prereq) (outcomes : List Outcome) (mv : MaxValues)
    (uw : UtilityWeights) : Option ℝ :=
  let burnout_student := standardize_student_data student
  (calculate_burnout burnout_student code catalog requirements prereqs outcomes mv
      defaultWeights).map (fun burnout_prob =>
    let oas := calculate_outcome_alignment_score student code outcomes
    (uw.alpha : ℝ) * (oas : ℝ) + (uw.beta : ℝ) * (1 - burnout_prob) -
      (uw.delta : ℝ) * ((prereqPenalty student code prereqs : ℚ) : ℝ))

/-- Python's substring test `needle in hay` on strings. -/
def pyInStr (needle hay : String) : Bool :=
  (hay.data.tails).any (fun t => needle.data.isPrefixOf t)

/-- ga_recommender.calculate_enrollment_likelihood (source lines 81-96). -/
def calculate_enrollment_likelihood (semester : ℚ) (is_core : Bool)
    (seats enrollments : ℚ) : ℚ :=
  let seats_ratio := if seats > 0 then (seats - enrollments) / seats else 0
  let base_likelihood := if seats_ratio ≤ 0 then 1/10 else seats_ratio
  let semester_multiplier := min (semester / 4) 1
  let core_multiplier : ℚ := if is_core then 3/2 else 1
  min (base_likelihood * semester_multiplier * core_multiplier) 1

/-- The enrollment-likelihood formula as the claim states it:
`min(base · min(semester/4, 1) · (1.5 if core else 1), 1)` with
`base = (seats-enrollments)/seats if seats > 0 else 0`, floored to 0.1
when ≤ 0. -/
def likelihoodSpec (semester : ℚ) (is_core : Bool) (seats enrollments : ℚ) : ℚ :=
  let base0 : ℚ := if seats > 0 then (seats - enrollments) / seats else 0
  let base : ℚ := if base0 ≤ 0 then 1/10 else base0
  min (base * min (semester / 4) 1 * (if is_core then 3/2 else 1)) 1

/-- The fixed interest→keyword table of find_matching_courses (source
lines 131-140). -/
def interest_keywords : List (String × List String) :=
  [("ai", ["artificial intelligence", "machine learning", "deep learning", "neural", "nlp"]),
   ("web", ["web", "javascript", "frontend", "backend", "full-stack", "react", "node"]),
   ("data", ["data", "analytics", "database", "sql", "big data", "visualization"]),
   ("security", ["security", "cryptography", "cyber", "network security"]),
   ("mobile", ["mobile", "ios", "android", "app development"]),
   ("systems", ["operating system", "distributed", "parallel", "architecture"]),
   ("programming", ["python", "java", "c++", "algorithms", "software engineering"]),
   ("computer science", ["algorithms", "data structures", "programming", "software"])]

/-- The interest list of find_matching_courses (source lines 101-105):
comma-split, lowercased and stripped, with the fixed defaults substituted
when the list is empty or a single empty string. -/
def parseInterests (interests : String) : List String :=
  let student_interests := (pySplit interests ',').map (fun i => pyStrip (pyLower i))
  if student_interests = [] ∨
      (student_interests.length = 1 ∧ student_interests.head? = some "") then
    ["computer science", "data science", "programming"]
  else student_interests

/-- Steps 1-2 of the per-course loop of find_matching_courses (source
lines 115-147): interest substring matches against the lowercased course
name (+0.4) and outcomes text (+0.3), then keyword-table hits against the
outcomes text (+0.2), accumulating reason strings in discovery order
(the source interpolates the matched text into each reason). -/
def interestMatchScore (student_interests : List String) (course : Subject) :
    ℚ × List String :=
  let course_name := pyLower course.name
  let course_outcomes :=
    match course.course_outcomes with
    | some s => pyLower s
    | none => ""
  let step1 := student_interests.foldl
    (fun acc interest =>
      let acc1 :=
        if pyInStr interest course_name then
          (acc.1 + 2/5, acc.2 ++ ["Course title matches your interest in " ++ interest])
        else acc
      if pyInStr interest course_outcomes then
        (acc1.1 + 3/10, acc1.2 ++ ["Course covers topics in " ++ interest])
      else acc1)
    ((0 : ℚ), ([] : List String))
  student_interests.foldl
    (fun acc interest =>
      match List.lookup interest interest_keywords with
      | some keywords =>
        keywords.foldl
          (fun acc2 keyword =>
            if pyInStr keyword course_outcomes then
              (acc2.1 + 1/5, acc2.2 ++ ["Course includes " ++ keyword ++ " technologies"])
            else acc2)
          acc
      | none => acc)
    step1

/-- Steps 3-5 of the per-course loop of find_matching_courses (source
lines 149-185): halve the score when prerequisites are unsatisfied, then
blend in the precomputed utility signal (additive boost `0.5·u` when
`u > 0`, multiplicative penalty `·(1+u)` when `u < 0`).  Returns the score
and reasons just before the core-subject check, together with the
burnout/utility values read from the precomputed table. -/
def scoreBeforeCore (student : Student) (prereqs : List Prereq)
    (burnoutScores : Option (List BurnoutRow)) (student_interests : List String)
    (course : Subject) : ℚ × List String × Option ℚ × Option ℚ :=
  let base := interestMatchScore student_interests course
  let afterPrereq :=
    if ¬ (prerequisites_satisfied course.subject_code student prereqs) then
      (base.1 * (1/2), base.2 ++ ["⚠️ Prerequisites not completed"])
    else base
  match burnoutScores with
  | none => (afterPrereq.1, afterPrereq.2, none, none)
  | some rows =>
    match (rows.filter (fun r => r.subject_code = course.subject_code)).head? with
    | none => (afterPrereq.1, afterPrereq.2, none, none)
    | some row =>
      if row.utility > 0 then
        (afterPrereq.1 + row.utility * (1/2),
          afterPrereq.2 ++
            [if row.utility > 3/20 then "✅ Low burnout risk" else "Low-moderate burnout risk"],
          some row.burnout_score, some row.utility)
      else if row.utility < 0 then
        (afterPrereq.1 * (1 + row.utility),
          afterPrereq.2 ++ ["⚠️ High burnout risk"],
          some row.burnout_score, some row.utility)
      else (afterPrereq.1, afterPrereq.2, some row.burnout_score, some row.utility)

/-- One iteration of the per-course loop of find_matching_courses (source
lines 107-205): completed courses are skipped, the scored course is kept
when the score exceeds 0.3 or the subject is a core requirement, and a
core subject gets a +0.5 boost and a core reason. -/
def processCourse (student : Student) (prereqs : List Prereq)
    (burnoutScores : Option (List BurnoutRow)) (student_interests : List String)
    (course : Subject) : Option MatchedCourse :=
  if (completedKeys student).contains course.subject_code then none
  else
    let scored := scoreBeforeCore student prereqs burnoutScores student_interests course
    let score := scored.1
    let reasons := scored.2.1
    let is_core := (pySplit student.core_subjects ',').contains course.subject_code
    let likelihood := calculate_enrollment_likelihood student.semester is_core
      (course.seats.getD 0) (course.enrollments.getD 0)
    if score > 3/10 ∨ is_core = true then
      let final :=
        if is_core then (score + 1/2, reasons ++ ["📚 This is a core subject requirement"])
        else (score, reasons)
      some
        { subject_code := course.subject_code
          name := course.name
          match_score := final.1
          likelihood := likelihood
          seats := course.seats.getD 0
          enrollments := course.enrollments.getD 0
          burnout_score := scored.2.2.1
          utility_score := scored.2.2.2
          reasons := final.2
          is_core := is_core }
    else none

/-- The composite component of the sort key (source lines 210-212):
`0.5·match + 0.3·(utility or 0) + 0.2·likelihood`. -/
def compositeKey (c : MatchedCourse) : ℚ :=
  c.match_score * (1/2) + (c.utility_score.getD 0) * (3/10) + c.likelihood * (1/5)

/-- The ordering of `matching_courses.sort(key=..., reverse=True)` (source
lines 208-213): `a` may precede `b` when the key tuple
`(is_core, composite)` of `a` is lexicographically at least that of `b`
(`reverse=True` over Python's ascending tuple order, which ranks
`True` above `False`). -/
def courseLE (a b : MatchedCourse) : Bool :=
  (a.is_core && !b.is_core) ||
    (a.is_core = b.is_core && decide (compositeKey b ≤ compositeKey a))

/-- ga_recommender.find_matching_courses (source lines 98-215): score every
non-completed catalog row, keep the included ones, and stable-sort them
core-first by the composite key.  The `outcomes_df` and `coreqs_df`
arguments are accepted and unused exactly as in the source. -/
def find_matching_courses (student : Student) (catalog : List Subject)
    (_outcomes : List Outcome) (prereqs : List Prereq) (_coreqs : List Prereq)
    (burnoutScores : Option (List BurnoutRow)) : List MatchedCourse :=
  let student_interests := parseInterests student.interests
  (catalog.filterMap (processCourse student prereqs burnoutScores student_interests)).mergeSort
    courseLE

/-- The partition of generate_recommendations (source lines 260-268): a
matched course with likelihood below 0.3 goes to the highly-competitive
list, every other one to the recommended list, source order preserved.
Returns (recommended, highly competitive). -/
def splitByLikelihood : List MatchedCourse → List MatchedCourse × List MatchedCourse
  | [] => ([], [])
  | c :: rest =>
    let split := splitByLikelihood rest
    if c.likelihood < 3/10 then (split.1, c :: split.2)
    else (c :: split.1, split.2)

/-- The course-selection part of generate_recommendations (source lines
243-270) for an already-loaded catalog and burnout table: the matching
courses split into (recommended, highly competitive). -/
def generate_recommendations_core (student : Student) (catalog : List Subject)
    (outcomes : List Outcome) (prereqs : List Prereq) (coreqs : List Prereq)
    (burnoutScores : Option (List BurnoutRow)) :
    List MatchedCourse × List MatchedCourse :=
  splitByLikelihood
    (find_matching_courses student catalog outcomes prereqs coreqs burnoutScores)

/-- One row of the burnout-score output of calculate_scores. -/
structure ScoreEntry where
  subject_code : String
  subject_name : String
  burnout_score : ℝ
  prerequisites : List String
  prerequisites_satisfied : Bool
  utility : ℚ
  deriving Inhabited

/-- The scoring loop of burnout_calculator.calculate_scores (source lines
230-262) for an already-loaded catalog and student: completed subjects are
skipped, every other subject gets a burnout row, and the rows are sorted
ascending by burnout score (pandas `sort_values`, a stable sort).  The
source rounds the displayed burnout to 3 decimals and stores a placeholder
utility of 0; rounding is display-only and not modelled. -/
noncomputable def calculate_scores_core (student : Student) (catalog : List Subject)
    (requirements : List Requirement) (prereqs : List Prereq)
    (outcomes : List Outcome) (mv : MaxValues) : List ScoreEntry :=
  (catalog.filterMap (fun s =>
    if (completedKeys student).contains s.subject_code then none
    else
      (calculate_burnout student s.subject_code catalog requirements prereqs outcomes mv
          defaultWeights).map (fun b =>
        { subject_code := s.subject_code
          subject_name := s.name
          burnout_score := b
          prerequisites := prereqsOf prereqs s.subject_code
          prerequisites_satisfied := prerequisites_satisfied s.subject_code student prereqs
          utility := 0 }))).mergeSort
    (fun a b => decide (a.burnout_score ≤ b.burnout_score))

/-- The prerequisite penalty exactly as the claim states it: 1 when the
subject has at least one prerequisite and at least one of them is not in
the student's completed set, 0 otherwise. -/
def claimPenalty (student : Student) (code : String) (prereqs : List Prereq) : ℚ :=
  if prereqsOf prereqs code ≠ [] ∧ ∃ p ∈ prereqsOf prereqs code, p ∉ completedKeys student
  then 1 else 0

/-- A catalog row whose every optional cell is missing (all-NaN row). -/
def blankSubject : Subject :=
  { subject_code := "CS0000", name := "Blank", course_outcomes := none
    hours_per_week := none, num_assignments := none, hours_per_assignment := none
    assignment_weight := none, avg_assignment_grade := none, project_weight := none
    avg_project_grade := none, exam_count := none, avg_exam_grade := none
    exam_weight := none, avg_final_grade := none, seats := none, enrollments := none }

/-- A catalog row with every numeric cell equal to 0. -/
def demoSubject : Subject :=
  { subject_code := "CS5001", name := "Intro to Program Design"
    course_outcomes := some "programming, software"
    hours_per_week := some 0, num_assignments := some 0, hours_per_assignment := some 0
    assignment_weight := some 0, avg_assignment_grade := some 0, project_weight := some 0
    avg_project_grade := some 0, exam_count := some 0, avg_exam_grade := some 0
    exam_weight := some 0, avg_final_grade := some 0, seats := some 100
    enrollments := some 95 }

/-- A fully populated catalog row. -/
def fullSubject : Subject :=
  { subject_code := "CS6120", name := "Natural Language Processing"
    course_outcomes := some "nlp, machine learning"
    hours_per_week := some 10, num_assignments := some 5, hours_per_assignment := some 2
    assignment_weight := some 1, avg_assignment_grade := some 80, project_weight := some 1
    avg_project_grade := some 80, exam_count := some 2, avg_exam_grade := some 75
    exam_weight := some 1, avg_final_grade := some 82, seats := some 60
    enrollments := some 30 }

/-- A student with an empty profile. -/
def emptyStudent : Student :=
  { programming_experience := [], math_experience := [], completed_courses := []
    core_subjects := "", desired_outcomes := "", interests := "", semester := 1 }

/-- A student whose core-requirement list names `CS5001`. -/
def coreStudent : Student :=
  { emptyStudent with core_subjects := "CS5001" }

/-- A student who has completed `CS5001`. -/
def completedStudent : Student :=
  { emptyStudent with completed_courses := [("CS5001", CompletedEntry.other)] }

/-- A normalization context with every maximum equal to 1. -/
def demoMV : MaxValues := { Hmax := 1, Amax := 1, Pmax := 1, Emax := 1 }

/-- A matched-course record with likelihood 1/20 (the C4 scenario values). -/
def demoMatched : MatchedCourse :=
  { subject_code := "CS5001", name := "Intro to Program Design"
    match_score := 1/2, likelihood := 1/20, seats := 100, enrollments := 95
    burnout_score := none, utility_score := none, reasons := [], is_core := false }

/-- C8: for every student and every subject whose requirement set is empty
(T = 0), the prerequisite mismatch factor M' returned by
calculate_prerequisite_mismatch_factor is exactly 0. -/
theorem c8_mismatch_zero_without_requirements (student : Student) (code : String)
    (requirements : List Requirement) (prereqs : List Prereq)
    (h : requirements.filter (fun r => r.subject_code = code) = []) :
    calculate_prerequisite_mismatch_factor student code requirements prereqs = 0 := by
  unfold calculate_prerequisite_mismatch_factor
  rw [h]
  simp

theorem c8_mismatch_zero_without_requirements_witness :
    ([⟨"CS9999", "math", "Calculus"⟩] : List Requirement).filter
        (fun r => r.subject_code = "CS5001") = [] ∧
    calculate_prerequisite_mismatch_factor emptyStudent "CS5001"
      [⟨"CS9999", "math", "Calculus"⟩] [] = 0 :=
  ⟨by decide, c8_mismatch_zero_without_requirements emptyStudent "CS5001" _ [] (by decide)⟩

/-- C9: for every fixed input tuple, evaluating calculate_burnout twice
yields the same result, and likewise for calculate_utility: both are
functions of their explicit arguments alone (catalog, normalization
context, weights and profile are all passed in; the source reads no
mutable module state in either function). -/
theorem c9_burnout_and_utility_deterministic (student : Student) (code : String)
    (catalog : List Subject) (requirements : List Requirement)
    (prereqs : List Prereq) (outcomes : List Outcome) (mv : MaxValues)
    (w : Weights) (uw : UtilityWeights) :
    calculate_burnout student code catalog requirements prereqs outcomes mv w =
      calculate_burnout student code catalog requirements prereqs outcomes mv w ∧
    calculate_utility student code catalog requirements prereqs outcomes mv uw =
      calculate_utility student code catalog requirements prereqs outcomes mv uw :=
  ⟨rfl, rfl⟩

/-- C2: for every subject code absent from the catalog, the burnout
computation signals an error that propagates (under Python semantics the
`None` returned by get_subject is dereferenced, raising at once), and
calculate_burnout produces no value at all for the missing subject —
in particular it never produces a silently defaulted one. -/
theorem c2_missing_subject_error_propagates (student : Student) (code : String)
    (catalog : List Subject) (requirements : List Requirement)
    (prereqs : List Prereq) (outcomes : List Outcome) (mv : MaxValues)
    (w : Weights) (h : get_subject catalog code = none) :
    workload_factor_run catalog code =
      Except.error "AttributeError: NoneType object has no attribute iloc" ∧
    calculate_burnout student code catalog requirements prereqs outcomes mv w = none := by
  constructor
  · unfold workload_factor_run
    rw [h]
  · unfold calculate_burnout workload_factor
    rw [h]
    simp

theorem c2_missing_subject_error_propagates_witness :
    get_subject [demoSubject] "CS9999" = none ∧
    workload_factor_run [demoSubject] "CS9999" =
      Except.error "AttributeError: NoneType object has no attribute iloc" ∧
    calculate_burnout emptyStudent "CS9999" [demoSubject] [] [] [] demoMV
      defaultWeights = none :=
  ⟨by decide,
    c2_missing_subject_error_propagates emptyStudent "CS9999" [demoSubject] [] [] []
      demoMV defaultWeights (by decide)⟩

/-- C1: the claim's bound is right about the combining formula — the
sigmoid of the weighted factor sum always lies in [0,1] — but the code
never returns it: under Python semantics workload_factor re-applies
`.iloc[0]` to the row Series that get_subject already extracted, obtaining
the subject_code string, and subscripting that string with
'hours_per_week' raises TypeError for every subject present in the
catalog, so calculate_burnout raises instead of returning. -/
theorem c1_burnout_sigmoid_range_but_code_raises :
    workload_factor_run [demoSubject] "CS5001" =
      Except.error "TypeError: string indices must be integers" ∧
    ∀ (w : Weights) (W_prime M_prime S_prime : ℝ),
      combineBurnout w W_prime M_prime S_prime ∈ Set.Icc (0 : ℝ) 1 := by
  constructor
  · rfl
  · intro w W_prime M_prime S_prime
    unfold combineBurnout
    have hpos : (0 : ℝ) < Real.exp (-(w.k : ℝ) *
        (((w.w1 : ℝ) * W_prime + (w.w2 : ℝ) * M_prime + (w.w3 : ℝ) * S_prime) -
          (w.P0 : ℝ))) := Real.exp_pos _
    constructor
    · positivity
    · rw [div_le_one (by linarith)]
      linarith

/-- C3 counterexample: for the catalog consisting of one all-missing row,
none of the four maxima produced by precalculate_max_values is ≥ 1 — the
function aggregates the raw columns without filling missing values, a
column with no present value has a NaN maximum, and `max(NaN, 1)` is again
NaN, which compares false against 1. -/
theorem c3_all_missing_catalog_counterexample :
    optGe (precalculate_max_values [blankSubject]).Hmax 1 = false ∧
    optGe (precalculate_max_values [blankSubject]).Amax 1 = false ∧
    optGe (precalculate_max_values [blankSubject]).Pmax 1 = false ∧
    optGe (precalculate_max_values [blankSubject]).Emax 1 = false := by
  decide

/-- C3 amended: for every catalog in which each of the four derived
workload quantities is present (non-NaN) for at least one subject — in
particular any catalog whose rows are fully populated, including one
where every derived quantity is 0 — each of the four maxima returned by
precalculate_max_values is ≥ 1. -/
theorem c3_max_values_ge_one (catalog : List Subject) (vH vA vP vE : ℚ)
    (hH : colMax (catalog.map Subject.hours_per_week) = some vH)
    (hA : colMax (catalog.map (fun s =>
      optMul (optMul s.num_assignments s.hours_per_assignment) s.assignment_weight)) = some vA)
    (hP : colMax (catalog.map (fun s =>
      optMul (optSubFrom 100 s.avg_project_grade) s.project_weight)) = some vP)
    (hE : colMax (catalog.map (fun s =>
      optMul (optMul s.exam_count (optSubFrom 100 s.avg_exam_grade)) s.exam_weight)) = some vE) :
    optGe (precalculate_max_values catalog).Hmax 1 = true ∧
    optGe (precalculate_max_values catalog).Amax 1 = true ∧
    optGe (precalculate_max_values catalog).Pmax 1 = true ∧
    optGe (precalculate_max_values catalog).Emax 1 = true := by
  unfold precalculate_max_values
  rw [hH, hA, hP, hE]
  simp [pyMaxOne, optGe]

theorem c3_max_values_ge_one_witness :
    colMax ([fullSubject].map Subject.hours_per_week) = some 10 ∧
    colMax ([fullSubject].map (fun s =>
      optMul (optMul s.num_assignments s.hours_per_assignment) s.assignment_weight)) = some 10 ∧
    colMax ([fullSubject].map (fun s =>
      optMul (optSubFrom 100 s.avg_project_grade) s.project_weight)) = some 20 ∧
    colMax ([fullSubject].map (fun s =>
      optMul (optMul s.exam_count (optSubFrom 100 s.avg_exam_grade)) s.exam_weight)) = some 50 ∧
    (optGe (precalculate_max_values [fullSubject]).Hmax 1 = true ∧
      optGe (precalculate_max_values [fullSubject]).Amax 1 = true ∧
      optGe (precalculate_max_values [fullSubject]).Pmax 1 = true ∧
      optGe (precalculate_max_values [fullSubject]).Emax 1 = true) :=
  ⟨by norm_num [colMax, fullSubject],
    by norm_num [colMax, optMul, fullSubject],
    by norm_num [colMax, optMul, optSubFrom, fullSubject],
    by norm_num [colMax, optMul, optSubFrom, fullSubject],
    c3_max_values_ge_one [fullSubject] 10 10 20 50
      (by norm_num [colMax, fullSubject])
      (by norm_num [colMax, optMul, fullSubject])
      (by norm_num [colMax, optMul, optSubFrom, fullSubject])
      (by norm_num [colMax, optMul, optSubFrom, fullSubject])⟩

/-- Every course in the recommended component of the likelihood partition
has likelihood ≥ 0.3. -/
theorem splitByLikelihood_left_not_lt (l : List MatchedCourse) (x : MatchedCourse)
    (hx : x ∈ (splitByLikelihood l).1) : ¬ x.likelihood < 3/10 := by
  induction l with
  | nil => simp [splitByLikelihood] at hx
  | cons c rest ih =>
    by_cases hc : c.likelihood < 3/10
    · simp only [splitByLikelihood, hc, if_pos] at hx
      exact ih hx
    · simp only [splitByLikelihood, hc, if_neg, not_false_iff, List.mem_cons] at hx
      rcases hx with rfl | hx
      · exact hc
      · exact ih hx

/-- Every course of the matched list with likelihood < 0.3 lands in the
highly-competitive component of the partition. -/
theorem splitByLikelihood_mem_right (l : List MatchedCourse) (c : MatchedCourse)
    (hc : c ∈ l) (hlt : c.likelihood < 3/10) : c ∈ (splitByLikelihood l).2 := by
  induction l with
  | nil => simp at hc
  | cons a rest ih =>
    rcases List.mem_cons.1 hc with rfl | hmem
    · simp only [splitByLikelihood, hlt, if_pos]
      exact List.mem_cons_self _ _
    · by_cases ha : a.likelihood < 3/10
      · simp only [splitByLikelihood, ha, if_pos]
        exact List.mem_cons_of_mem _ (ih hmem)
      · simp only [splitByLikelihood, ha, if_neg, not_false_iff]
        exact ih hmem

/-- C4: the enrollment likelihood computed by
calculate_enrollment_likelihood equals the claim's closed form
`min(base · min(semester/4, 1) · (1.5 if core else 1), 1)` with the stated
base; the claimed scenario seats=100, enrollments=95, semester=4,
non-core yields exactly 0.05, which is below 0.3; and every matched
course with likelihood < 0.3 is placed in the highly-competitive
partition and not in the recommended one. -/
theorem c4_enrollment_likelihood_and_partition :
    (∀ (semester : ℚ) (is_core : Bool) (seats enrollments : ℚ),
      calculate_enrollment_likelihood semester is_core seats enrollments =
        likelihoodSpec semester is_core seats enrollments) ∧
    calculate_enrollment_likelihood 4 false 100 95 = 1/20 ∧
    calculate_enrollment_likelihood 4 false 100 95 < 3/10 ∧
    (∀ (l : List MatchedCourse) (c : MatchedCourse), c ∈ l →
      c.likelihood < 3/10 →
      c ∈ (splitByLikelihood l).2 ∧ c ∉ (splitByLikelihood l).1) := by
  have hval : calculate_enrollment_likelihood 4 false 100 95 = 1/20 := by
    norm_num [calculate_enrollment_likelihood, min_def]
  refine ⟨fun semester is_core seats enrollments => rfl, hval, by rw [hval]; norm_num,
    fun l c hc hlt => ⟨splitByLikelihood_mem_right l c hc hlt,
      fun hin => splitByLikelihood_left_not_lt l c hin hlt⟩⟩

theorem c4_enrollment_likelihood_and_partition_witness :
    demoMatched ∈ [demoMatched] ∧ demoMatched.likelihood < 3/10 ∧
    (demoMatched ∈ (splitByLikelihood [demoMatched]).2 ∧
      demoMatched ∉ (splitByLikelihood [demoMatched]).1) :=
  ⟨List.mem_singleton_self _, by norm_num [demoMatched],
    c4_enrollment_likelihood_and_partition.2.2.2 [demoMatched] demoMatched
      (List.mem_singleton_self _) (by norm_num [demoMatched])⟩

/-- The penalty computed by calculate_utility coincides with the claim's
all-or-nothing characterization: 1 exactly when the subject has at least
one prerequisite and at least one of them is missing from the student's
completed set, 0 otherwise — never a partial value. -/
theorem prereqPenalty_eq_claimPenalty (student : Student) (code : String)
    (prereqs : List Prereq) :
    prereqPenalty student code prereqs = claimPenalty student code prereqs := by
  unfold prereqPenalty claimPenalty
  by_cases h : prereqsOf prereqs code = []
  · simp [h]
  · by_cases hall : ∀ p ∈ prereqsOf prereqs code, p ∈ completedKeys student
    · have hno : ¬ ∃ p ∈ prereqsOf prereqs code, p ∉ completedKeys student := by
        push_neg
        exact hall
      simp [h, hall, hno]
    · have hex : ∃ p ∈ prereqsOf prereqs code, p ∉ completedKeys student := by
        push_neg at hall
        exact hall
      simp [h, hall, hex]

/-- C7: whenever the inner burnout computation produces a value b, the
utility returned by calculate_utility is exactly
`α·OAS + β·(1-b) - δ·penalty`, with the penalty equal to the claim's
all-or-nothing characterization (1 when some prerequisite is missing from
the completed set, 0 otherwise — never partial). -/
theorem c7_utility_formula_and_penalty (student : Student) (code : String)
    (catalog : List Subject) (requirements : List Requirement)
    (prereqs : List Prereq) (outcomes : List Outcome) (mv : MaxValues)
    (uw : UtilityWeights) (b : ℝ)
    (hb : calculate_burnout (standardize_student_data student) code catalog
      requirements prereqs outcomes mv defaultWeights = some b) :
    prereqPenalty student code prereqs = claimPenalty student code prereqs ∧
    calculate_utility student code catalog requirements prereqs outcomes mv uw =
      some ((uw.alpha : ℝ) *
          ((calculate_outcome_alignment_score student code outcomes : ℚ) : ℝ) +
        (uw.beta : ℝ) * (1 - b) -
        (uw.delta : ℝ) * ((claimPenalty student code prereqs : ℚ) : ℝ)) := by
  refine ⟨prereqPenalty_eq_claimPenalty student code prereqs, ?_⟩
  have hb' : calculate_burnout student code catalog requirements prereqs outcomes mv
      defaultWeights = some b := by
    simpa [standardize_student_data] using hb
  simp [calculate_utility, standardize_student_data, hb',
    prereqPenalty_eq_claimPenalty]

theorem c7_utility_formula_and_penalty_witness :
    calculate_burnout (standardize_student_data emptyStudent) "CS5001" [demoSubject]
      [] [] [] demoMV defaultWeights = some (1 / (1 + Real.exp 2)) ∧
    (prereqPenalty emptyStudent "CS5001" [] = claimPenalty emptyStudent "CS5001" [] ∧
      calculate_utility emptyStudent "CS5001" [demoSubject] [] [] [] demoMV
          defaultUtilityWeights =
        some ((defaultUtilityWeights.alpha : ℝ) *
            ((calculate_outcome_alignment_score emptyStudent "CS5001" [] : ℚ) : ℝ) +
          (defaultUtilityWeights.beta : ℝ) * (1 - (1 / (1 + Real.exp 2))) -
          (defaultUtilityWeights.delta : ℝ) *
            ((claimPenalty emptyStudent "CS5001" [] : ℚ) : ℝ))) := by
  have hb : calculate_burnout (standardize_student_data emptyStudent) "CS5001"
      [demoSubject] [] [] [] demoMV defaultWeights = some (1 / (1 + Real.exp 2)) := by
    simp only [calculate_burnout, standardize_student_data, workload_factor,
      calculate_stress_factor, get_subject, demoSubject, demoMV, emptyStudent,
      calculate_prerequisite_mismatch_factor, combineBurnout, defaultWeights]
    norm_num [Real.log_one]
  exact ⟨hb, c7_utility_formula_and_penalty emptyStudent "CS5001" [demoSubject] [] [] []
    demoMV defaultUtilityWeights (1 / (1 + Real.exp 2)) hb⟩

/-- The sigmoid squash used by calculate_burnout is strictly increasing in
its argument when the scaling factor k is positive. -/
theorem sigmoid_strict_mono (k P0 : ℚ) (hk : 0 < k) {x y : ℝ} (h : x < y) :
    1 / (1 + Real.exp (-(k : ℝ) * (x - (P0 : ℝ)))) <
      1 / (1 + Real.exp (-(k : ℝ) * (y - (P0 : ℝ)))) := by
  have hk' : (0 : ℝ) < (k : ℝ) := by exact_mod_cast hk
  have harg : -(k : ℝ) * (y - (P0 : ℝ)) < -(k : ℝ) * (x - (P0 : ℝ)) := by nlinarith
  have hexp : Real.exp (-(k : ℝ) * (y - (P0 : ℝ))) <
      Real.exp (-(k : ℝ) * (x - (P0 : ℝ))) := Real.exp_lt_exp.2 harg
  have hden : (0 : ℝ) < 1 + Real.exp (-(k : ℝ) * (y - (P0 : ℝ))) := by positivity
  exact one_div_lt_one_div_of_lt hden (by linarith)

/-- C10: with the default weights (w1=0.4, w2=0.3, w3=0.3, k=4), the
burnout combination is strictly increasing in each of the three factors
separately. -/
theorem c10_burnout_strictly_monotone :
    (∀ (Wa Wb M S : ℝ), Wa < Wb →
      combineBurnout defaultWeights Wa M S < combineBurnout defaultWeights Wb M S) ∧
    (∀ (W Ma Mb S : ℝ), Ma < Mb →
      combineBurnout defaultWeights W Ma S < combineBurnout defaultWeights W Mb S) ∧
    (∀ (W M Sa Sb : ℝ), Sa < Sb →
      combineBurnout defaultWeights W M Sa < combineBurnout defaultWeights W M Sb) := by
  have hk : (0 : ℚ) < defaultWeights.k := by norm_num [defaultWeights]
  have hw1 : ((defaultWeights.w1 : ℚ) : ℝ) = 2/5 := by norm_num [defaultWeights]
  have hw2 : ((defaultWeights.w2 : ℚ) : ℝ) = 3/10 := by norm_num [defaultWeights]
  have hw3 : ((defaultWeights.w3 : ℚ) : ℝ) = 3/10 := by norm_num [defaultWeights]
  refine ⟨fun Wa Wb M S h => ?_, fun W Ma Mb S h => ?_, fun W M Sa Sb h => ?_⟩ <;>
    (unfold combineBurnout
     apply sigmoid_strict_mono defaultWeights.k defaultWeights.P0 hk
     rw [hw1, hw2, hw3]
     nlinarith)

theorem c10_burnout_strictly_monotone_witness :
    combineBurnout defaultWeights 0 0 0 < combineBurnout defaultWeights 1 0 0 ∧
    combineBurnout defaultWeights 0 0 0 < combineBurnout defaultWeights 0 1 0 ∧
    combineBurnout defaultWeights 0 0 0 < combineBurnout defaultWeights 0 0 1 :=
  ⟨c10_burnout_strictly_monotone.1 0 1 0 0 (by norm_num),
    c10_burnout_strictly_monotone.2.1 0 0 1 0 (by norm_num),
    c10_burnout_strictly_monotone.2.2 0 0 0 1 (by norm_num)⟩

/-- The sort comparator of find_matching_courses is transitive. -/
theorem courseLE_trans (a b c : MatchedCourse) (hab : courseLE a b = true)
    (hbc : courseLE b c = true) : courseLE a c = true := by
  unfold courseLE at hab hbc ⊢
  cases ha : a.is_core <;> cases hb : b.is_core <;> cases hc : c.is_core <;>
    simp_all <;> linarith

/-- The sort comparator of find_matching_courses is total. -/
theorem courseLE_total (a b : MatchedCourse) :
    (courseLE a b || courseLE b a) = true := by
  unfold courseLE
  cases ha : a.is_core <;> cases hb : b.is_core <;> simp_all
  · exact le_total (compositeKey b) (compositeKey a)
  · exact le_total (compositeKey b) (compositeKey a)

/-- A course ranked at least as high as a core course is itself core: the
comparator's primary key is the `is_core` flag. -/
theorem courseLE_core (a b : MatchedCourse) (h : courseLE a b = true)
    (hb : b.is_core = true) : a.is_core = true := by
  unfold courseLE at h
  cases ha : a.is_core <;> simp_all

/-- A non-completed subject listed among the student's core requirements is
always kept by the per-course loop, flagged core, with the +0.5 boost
applied on top of the pre-boost score. -/
theorem processCourse_core_included (student : Student) (prereqs : List Prereq)
    (bs : Option (List BurnoutRow)) (interests : List String) (course : Subject)
    (hdone : (completedKeys student).contains course.subject_code = false)
    (hcore : (pySplit student.core_subjects ',').contains course.subject_code = true) :
    ∃ e, processCourse student prereqs bs interests course = some e ∧
      e.subject_code = course.subject_code ∧ e.is_core = true ∧
      e.match_score =
        (scoreBeforeCore student prereqs bs interests course).1 + 1/2 := by
  simp only [processCourse, hdone, hcore, Bool.false_eq_true, if_false, if_true,
    or_true, eq_self_iff_true]
  exact ⟨_, rfl, rfl, rfl, rfl⟩

/-- C5: a subject listed among the student's core requirements (and not
already completed) is included in the matching-course output whatever its
pre-boost match score (0.0 included), its recorded score is the pre-boost
score plus 0.5, and in the sorted output no non-core subject ever precedes
a core subject, whatever the composite scores. -/
theorem c5_core_inclusion_boost_and_ranking :
    (∀ (student : Student) (catalog : List Subject) (outcomes : List Outcome)
        (prereqs coreqs : List Prereq) (bs : Option (List BurnoutRow))
        (course : Subject),
      course ∈ catalog →
      (pySplit student.core_subjects ',').contains course.subject_code = true →
      (completedKeys student).contains course.subject_code = false →
      ∃ e ∈ find_matching_courses student catalog outcomes prereqs coreqs bs,
        e.subject_code = course.subject_code ∧ e.is_core = true ∧
        e.match_score =
          (scoreBeforeCore student prereqs bs (parseInterests student.interests)
            course).1 + 1/2) ∧
    (∀ (student : Student) (catalog : List Subject) (outcomes : List Outcome)
        (prereqs coreqs : List Prereq) (bs : Option (List BurnoutRow)),
      List.Pairwise (fun a b => b.is_core = true → a.is_core = true)
        (find_matching_courses student catalog outcomes prereqs coreqs bs)) := by
  constructor
  · intro student catalog outcomes prereqs coreqs bs course hmem hcore hdone
    obtain ⟨e, hp, h1, h2, h3⟩ := processCourse_core_included student prereqs bs
      (parseInterests student.interests) course hdone hcore
    refine ⟨e, ?_, h1, h2, h3⟩
    simp only [find_matching_courses, List.mem_mergeSort, List.mem_filterMap]
    exact ⟨course, hmem, hp⟩
  · intro student catalog outcomes prereqs coreqs bs
    unfold find_matching_courses
    exact (List.sorted_mergeSort courseLE_trans courseLE_total _).imp
      (fun h hb => courseLE_core _ _ h hb)

theorem c5_core_inclusion_boost_and_ranking_witness :
    demoSubject ∈ [demoSubject] ∧
    (pySplit coreStudent.core_subjects ',').contains demoSubject.subject_code = true ∧
    (completedKeys coreStudent).contains demoSubject.subject_code = false ∧
    ∃ e ∈ find_matching_courses coreStudent [demoSubject] [] [] [] none,
      e.subject_code = demoSubject.subject_code ∧ e.is_core = true ∧
      e.match_score =
        (scoreBeforeCore coreStudent [] none (parseInterests coreStudent.interests)
          demoSubject).1 + 1/2 :=
  ⟨List.mem_singleton_self _, by decide, by decide,
    c5_core_inclusion_boost_and_ranking.1 coreStudent [demoSubject] [] [] [] none
      demoSubject (List.mem_singleton_self _) (by decide) (by decide)⟩

/-- Any record produced by the per-course loop carries the subject code of
a course that is not among the student's completed courses. -/
theorem processCourse_not_completed (student : Student) (prereqs : List Prereq)
    (bs : Option (List BurnoutRow)) (interests : List String) (course : Subject)
    (e : MatchedCourse)
    (h : processCourse student prereqs bs interests course = some e) :
    e.subject_code = course.subject_code ∧
      course.subject_code ∉ completedKeys student := by
  unfold processCourse at h
  by_cases hc : course.subject_code ∈ completedKeys student
  · exfalso
    simp [hc] at h
  · refine ⟨?_, hc⟩
    have hcb : (completedKeys student).contains course.subject_code = false := by
      simpa using hc
    rw [hcb] at h
    simp only [Bool.false_eq_true, if_false] at h
    split at h
    · cases h
      rfl
    · cases h

/-- Every matched course output by find_matching_courses has a subject code
outside the student's completed set. -/
theorem find_matching_courses_not_completed (student : Student)
    (catalog : List Subject) (outcomes : List Outcome)
    (prereqs coreqs : List Prereq) (bs : Option (List BurnoutRow))
    (e : MatchedCourse)
    (he : e ∈ find_matching_courses student catalog outcomes prereqs coreqs bs) :
    e.subject_code ∉ completedKeys student := by
  simp only [find_matching_courses, List.mem_mergeSort, List.mem_filterMap] at he
  obtain ⟨course, -, hp⟩ := he
  obtain ⟨h1, h2⟩ := processCourse_not_completed student prereqs bs
    (parseInterests student.interests) course e hp
  rw [h1]
  exact h2

/-- Membership in the recommended component of the partition implies
membership in the matched list. -/
theorem splitByLikelihood_left_subset (l : List MatchedCourse) (x : MatchedCourse)
    (hx : x ∈ (splitByLikelihood l).1) : x ∈ l := by
  induction l with
  | nil => simp [splitByLikelihood] at hx
  | cons c rest ih =>
    by_cases hc : c.likelihood < 3/10
    · simp only [splitByLikelihood, hc, if_pos] at hx
      exact List.mem_cons_of_mem _ (ih hx)
    · simp only [splitByLikelihood, hc, if_neg, not_false_iff, List.mem_cons] at hx
      rcases hx with rfl | hx
      · exact List.mem_cons_self _ _
      · exact List.mem_cons_of_mem _ (ih hx)

/-- Membership in the highly-competitive component of the partition implies
membership in the matched list. -/
theorem splitByLikelihood_right_subset (l : List MatchedCourse) (x : MatchedCourse)
    (hx : x ∈ (splitByLikelihood l).2) : x ∈ l := by
  induction l with
  | nil => simp [splitByLikelihood] at hx
  | cons c rest ih =>
    by_cases hc : c.likelihood < 3/10
    · simp only [splitByLikelihood, hc, if_pos, List.mem_cons] at hx
      rcases hx with rfl | hx
      · exact List.mem_cons_self _ _
      · exact List.mem_cons_of_mem _ (ih hx)
    · simp only [splitByLikelihood, hc, if_neg, not_false_iff] at hx
      exact List.mem_cons_of_mem _ (ih hx)

/-- C6: a subject code among the student's completed courses appears
neither in the burnout-score output of calculate_scores nor in the
recommended or highly-competitive lists produced via
find_matching_courses for that run. -/
theorem c6_completed_subjects_never_output (student : Student)
    (catalog : List Subject) (requirements : List Requirement)
    (prereqs coreqs : List Prereq) (outcomes : List Outcome) (mv : MaxValues)
    (bs : Option (List BurnoutRow)) (code : String)
    (hmem : code ∈ completedKeys student) :
    (∀ e ∈ calculate_scores_core student catalog requirements prereqs outcomes mv,
      e.subject_code ≠ code) ∧
    (∀ e ∈ (generate_recommendations_core student catalog outcomes prereqs coreqs
        bs).1, e.subject_code ≠ code) ∧
    (∀ e ∈ (generate_recommendations_core student catalog outcomes prereqs coreqs
        bs).2, e.subject_code ≠ code) := by
  have hfind : ∀ e ∈ find_matching_courses student catalog outcomes prereqs coreqs
      bs, e.subject_code ≠ code := by
    intro e he heq
    have hni := find_matching_courses_not_completed student catalog outcomes prereqs
      coreqs bs e he
    rw [heq] at hni
    exact hni hmem
  refine ⟨?_, ?_, ?_⟩
  · intro e he heq
    simp only [calculate_scores_core, List.mem_mergeSort, List.mem_filterMap] at he
    obtain ⟨s, -, hf⟩ := he
    by_cases hc : s.subject_code ∈ completedKeys student
    · simp [hc] at hf
    · have hcb : (completedKeys student).contains s.subject_code = false := by
        simpa using hc
      rw [hcb] at hf
      simp only [Bool.false_eq_true, if_false, Option.map_eq_some'] at hf
      obtain ⟨b, -, hbe⟩ := hf
      have hsc : s.subject_code = code := by
        rw [← heq, ← hbe]
      rw [hsc] at hc
      exact hc hmem
  · intro e he
    exact hfind e (splitByLikelihood_left_subset _ e he)
  · intro e he
    exact hfind e (splitByLikelihood_right_subset _ e he)

theorem c6_completed_subjects_never_output_witness :
    "CS5001" ∈ completedKeys completedStudent ∧
    (∀ e ∈ calculate_scores_core completedStudent [demoSubject] [] [] [] demoMV,
      e.subject_code ≠ "CS5001") ∧
    (∀ e ∈ (generate_recommendations_core completedStudent [demoSubject] [] []
        [] none).1, e.subject_code ≠ "CS5001") ∧
    (∀ e ∈ (generate_recommendations_core completedStudent [demoSubject] [] []
        [] none).2, e.subject_code ≠ "CS5001") :=
  ⟨by decide,
    c6_completed_subjects_never_output completedStudent [demoSubject] [] [] [] []
      demoMV none "CS5001" (by decide)⟩

end CRS
